import Mathlib

/-!
# Verification of the MoodTheramin scene scripts

A shallow embedding of the two browser scene scripts of this repository:
variant 1 (`src/script.js`, rotating sphere/cube/torus) and
variant 2 (`unnamed/part_000`, three orbiting point lights).

Numeric values held in JavaScript numbers are modelled as real numbers;
the trigonometric update formulas are embedded with `Real.cos` / `Real.sin`.
Scene state mutated by the scripts is carried in explicit state records,
and the asynchronous webcam initialisation together with the event-driven
callbacks (tick, resize, GUI sliders) is modelled as a step function on
session states driven by an event list.
-/

open Real

/-- A 3D vector, as used by `position`, `rotation` and `scale` fields. -/
structure Vec3 where
  x : ℝ
  y : ℝ
  z : ℝ

/-- The transform of a scene object: its `position` and `rotation` vectors. -/
structure Transform where
  position : Vec3
  rotation : Vec3

/-- `THREE.VideoTexture` state relevant to the scripts: its dirty flag
(`needsUpdate`). -/
structure VTex where
  needsUpdate : Bool

/-- The `sizes` record kept by both scripts: the current window dimensions. -/
structure Sizes where
  width : ℝ
  height : ℝ

/-- A `THREE.PerspectiveCamera` as configured by the scripts. -/
structure Camera where
  fov : ℝ
  aspect : ℝ
  near : ℝ
  far : ℝ
  position : Vec3

/-- The renderer state the scripts set: drawing-surface size and pixel ratio. -/
structure Renderer where
  width : ℝ
  height : ℝ
  pixelRatio : ℝ

/-- The video-textured "screen" mesh, created inside `init` once the webcam
promise resolves: a `PlaneGeometry(geomWidth, geomHeight)` with a basic
material mapped to the video texture, a position, and an `x` scale. -/
structure ScreenMesh where
  geomWidth : ℝ
  geomHeight : ℝ
  position : Vec3
  scaleX : ℝ

/-- The lifecycle of the webcam promise (`setupWebcam()` awaited in `init`):
it is pending until the browser settles it, exactly once, as resolved
(stream acquired) or rejected (denial / device absence). -/
inductive CapState where
  | pending
  | resolved
  | rejected
deriving DecidableEq

/-- Field updaters mirroring the JavaScript property assignments
`obj.rotation.y = v` and friends. -/
def setRotY (o : Transform) (v : ℝ) : Transform :=
  { o with rotation := { o.rotation with y := v } }

def setRotX (o : Transform) (v : ℝ) : Transform :=
  { o with rotation := { o.rotation with x := v } }

def setPosX (o : Transform) (v : ℝ) : Transform :=
  { o with position := { o.position with x := v } }

def setPosY (o : Transform) (v : ℝ) : Transform :=
  { o with position := { o.position with y := v } }

def setPosZ (o : Transform) (v : ℝ) : Transform :=
  { o with position := { o.position with z := v } }

/-! ## Variant 1 (`src/script.js`) -/

/-- The mutable module state of variant 1: the four meshes, the four light
intensities bound to GUI sliders, the sizes record, camera, renderer,
the `videoTexture` variable (initially `null`), the list of screen meshes
added to the scene, whether the frame loop has been started by `init`,
and the state of the webcam promise. -/
structure State1 where
  sphere : Transform
  cube : Transform
  torus : Transform
  plane : Transform
  ambientIntensity : ℝ
  directionalIntensity : ℝ
  pointIntensity : ℝ
  rectAreaIntensity : ℝ
  sizes : Sizes
  camera : Camera
  renderer : Renderer
  videoTexture : Option VTex
  screens : List ScreenMesh
  loopRunning : Bool
  cap : CapState

/-- The module-level initial state of `src/script.js`, given the initial
window dimensions `w0 × h0` and device pixel ratio `d0`:
sphere at `x = -1.5`, cube at the origin, torus at `x = 1.5`,
floor plane rotated `-π/2` about x and lowered to `y = -0.65`;
camera fov 75, aspect `w0/h0`, near 0.1, far 100, position `(1,1,2)`;
renderer sized `w0 × h0` with pixel ratio `min d0 2`;
`videoTexture = null`, no screen mesh, frame loop not yet started. -/
noncomputable def init1 (w0 h0 d0 : ℝ) : State1 where
  sphere := { position := ⟨-1.5, 0, 0⟩, rotation := ⟨0, 0, 0⟩ }
  cube := { position := ⟨0, 0, 0⟩, rotation := ⟨0, 0, 0⟩ }
  torus := { position := ⟨1.5, 0, 0⟩, rotation := ⟨0, 0, 0⟩ }
  plane := { position := ⟨0, -0.65, 0⟩, rotation := ⟨-Real.pi * 0.5, 0, 0⟩ }
  ambientIntensity := 0.0
  directionalIntensity := 0.0
  pointIntensity := 1.0
  rectAreaIntensity := 3
  sizes := ⟨w0, h0⟩
  camera := { fov := 75, aspect := w0 / h0, near := 0.1, far := 100,
              position := ⟨1, 1, 2⟩ }
  renderer := ⟨w0, h0, min d0 2⟩
  videoTexture := none
  screens := []
  loopRunning := false
  cap := .pending

/-- The state changes performed by one execution of the `tick` body of
variant 1, given the elapsed time `t` read from the clock: the six rotation
assignments in source order, then the conditional dirty-marking of the video
texture. (`controls.update()` and `renderer.render(...)` touch no state
modelled here.) -/
def tick1Update (t : ℝ) (s : State1) : State1 :=
  let s := { s with sphere := setRotY s.sphere (0.1 * t) }
  let s := { s with cube := setRotY s.cube (0.1 * t) }
  let s := { s with torus := setRotY s.torus (0.1 * t) }
  let s := { s with sphere := setRotX s.sphere (0.15 * t) }
  let s := { s with cube := setRotX s.cube (0.15 * t) }
  let s := { s with torus := setRotX s.torus (0.15 * t) }
  match s.videoTexture with
  | some _ => { s with videoTexture := some ⟨true⟩ }
  | none => s

/-- The body of the `resize` listener shared verbatim by both variants,
acting here on the variant-1 state: update the sizes record from the new
window dimensions `w × h`, recompute the camera aspect (and projection),
and resize the renderer, clamping the device pixel ratio `d` at 2. -/
noncomputable def onResize1 (w h d : ℝ) (s : State1) : State1 :=
  let s := { s with sizes := ⟨w, h⟩ }
  let s := { s with camera := { s.camera with aspect := s.sizes.width / s.sizes.height } }
  { s with renderer := ⟨s.sizes.width, s.sizes.height, min d 2⟩ }

/-- The tail of `init` once `setupWebcam()` has resolved, for variant 1:
assign the `videoTexture` variable, add the `16/9 × 1` screen plane at
`(0, 1, -5)` to the scene, and start the frame loop (`tick()`). -/
noncomputable def resolve1 (s : State1) : State1 :=
  { s with
    videoTexture := some ⟨false⟩
    screens := s.screens ++ [{ geomWidth := 16 / 9, geomHeight := 1,
                               position := ⟨0, 1, -5⟩, scaleX := 1 }]
    loopRunning := true
    cap := .resolved }

/-- The four GUI sliders of variant 1, in the order they are registered. -/
inductive Slider1 where
  | ambient
  | directional
  | point
  | rectArea
deriving DecidableEq

/-- A slider change writes the new value straight to the bound light's
`intensity`, as `lil-gui` does for `gui.add(light, "intensity")`. -/
def setIntensity1 (l : Slider1) (v : ℝ) (s : State1) : State1 :=
  match l with
  | .ambient => { s with ambientIntensity := v }
  | .directional => { s with directionalIntensity := v }
  | .point => { s with pointIntensity := v }
  | .rectArea => { s with rectAreaIntensity := v }

/-- The events that can reach the variant-1 session from the browser's
single-threaded event queue: settlement of the webcam promise (at most once,
guarded below), an animation-frame tick carrying the elapsed time read from
the clock, a window resize, and a GUI slider change. -/
inductive Event1 where
  | capResolve
  | capReject
  | tick (t : ℝ)
  | resize (w h d : ℝ)
  | slider (l : Slider1) (v : ℝ)

/-- One step of the variant-1 session. The webcam promise settles at most
once (`cap = pending` guard); ticks only occur while the frame loop is
running, since `tick` is scheduled only by `init` and by itself. -/
noncomputable def step1 (s : State1) : Event1 → State1
  | .capResolve => if s.cap = .pending then resolve1 s else s
  | .capReject => if s.cap = .pending then { s with cap := .rejected } else s
  | .tick t => if s.loopRunning then tick1Update t s else s
  | .resize w h d => onResize1 w h d s
  | .slider l v => setIntensity1 l v s

/-- Run the variant-1 session from a given state through a list of events. -/
noncomputable def runFrom1 (s : State1) (evs : List Event1) : State1 :=
  evs.foldl step1 s

/-- Run the variant-1 session from its initial state. -/
noncomputable def run1 (w0 h0 d0 : ℝ) (evs : List Event1) : State1 :=
  runFrom1 (init1 w0 h0 d0) evs

/-! ## Variant 2 (`unnamed/part_000`) -/

/-- The mutable module state of variant 2: the three moving point lights,
the floor plane, the rect-area light transform (position and scale), the
three light intensities bound to GUI sliders, the sizes record, camera,
renderer, the `videoTexture` variable, the screen meshes added to the
scene, whether the frame loop has started, and the webcam promise state. -/
structure State2 where
  movingLight1 : Transform
  movingLight2 : Transform
  movingLight3 : Transform
  plane : Transform
  rectAreaPosition : Vec3
  rectAreaScale : Vec3
  ambientIntensity : ℝ
  rectAreaIntensity : ℝ
  directionalIntensity : ℝ
  sizes : Sizes
  camera : Camera
  renderer : Renderer
  videoTexture : Option VTex
  screens : List ScreenMesh
  loopRunning : Bool
  cap : CapState

/-- The module-level initial state of `unnamed/part_000`, given the initial
window dimensions `w0 × h0` and device pixel ratio `d0`: the three moving
lights start at the origin (point-light default), the floor plane is rotated
`-π/2` and lowered to `y = -0.65`, the rect-area light sits at
`(0, 0, -0.01)` with scale `(4/3 + 0.2, 1.2, 1)`; camera fov 75, aspect
`w0/h0`, near 0.1, far 100, position `(0, 0, 1.25)`; renderer sized
`w0 × h0` with pixel ratio `min d0 2`. -/
noncomputable def init2 (w0 h0 d0 : ℝ) : State2 where
  movingLight1 := { position := ⟨0, 0, 0⟩, rotation := ⟨0, 0, 0⟩ }
  movingLight2 := { position := ⟨0, 0, 0⟩, rotation := ⟨0, 0, 0⟩ }
  movingLight3 := { position := ⟨0, 0, 0⟩, rotation := ⟨0, 0, 0⟩ }
  plane := { position := ⟨0, -0.65, 0⟩, rotation := ⟨-Real.pi * 0.5, 0, 0⟩ }
  rectAreaPosition := ⟨0, 0, -0.01⟩
  rectAreaScale := ⟨4 / 3 + 0.2, 1.2, 1⟩
  ambientIntensity := 0.0
  rectAreaIntensity := 3
  directionalIntensity := 0.5
  sizes := ⟨w0, h0⟩
  camera := { fov := 75, aspect := w0 / h0, near := 0.1, far := 100,
              position := ⟨0, 0, 1.25⟩ }
  renderer := ⟨w0, h0, min d0 2⟩
  videoTexture := none
  screens := []
  loopRunning := false
  cap := .pending

/-- The state changes performed by one execution of the `tick` body of
variant 2, given the elapsed time `t` read from the clock, in source order:
first the conditional dirty-marking of the video texture, then the nine
moving-light position assignments through the three intermediate angle
variables. (`controls.update()` and `renderer.render(...)` touch no state
modelled here.) -/
noncomputable def tick2Update (t : ℝ) (s : State2) : State2 :=
  let s := match s.videoTexture with
    | some _ => { s with videoTexture := some ⟨true⟩ }
    | none => s
  let movingLight1Angle := t * 0.5
  let s := { s with movingLight1 := setPosX s.movingLight1 (Real.cos movingLight1Angle * 2) }
  let s := { s with movingLight1 := setPosZ s.movingLight1 (Real.sin movingLight1Angle * 2) }
  let s := { s with movingLight1 := setPosY s.movingLight1 (Real.sin t * 1) }
  let movingLight2Angle := -t * 0.5
  let s := { s with movingLight2 := setPosX s.movingLight2 (Real.cos movingLight2Angle * 2.5) }
  let s := { s with movingLight2 := setPosZ s.movingLight2 (Real.sin movingLight2Angle * 2.55) }
  let s := { s with movingLight2 := setPosY s.movingLight2
                      (Real.sin (t * 2) + Real.sin (t * 2.5)) }
  let movingLight3Angle := t * 0.25
  let s := { s with movingLight3 := setPosX s.movingLight3
                      (Real.cos movingLight3Angle * (2 + Real.sin (t * 0.32))) }
  let s := { s with movingLight3 := setPosZ s.movingLight3
                      (Real.sin movingLight3Angle * (3 + Real.sin (t * 0.5))) }
  { s with movingLight3 := setPosY s.movingLight3
             (Real.sin (t * 1.5) + Real.sin (t * 1.5)) }

/-- The body of the `resize` listener of variant 2 (textually identical to
variant 1's), acting on the variant-2 state. -/
noncomputable def onResize2 (w h d : ℝ) (s : State2) : State2 :=
  let s := { s with sizes := ⟨w, h⟩ }
  let s := { s with camera := { s.camera with aspect := s.sizes.width / s.sizes.height } }
  { s with renderer := ⟨s.sizes.width, s.sizes.height, min d 2⟩ }

/-- The tail of `init` once `setupWebcam()` has resolved, for variant 2:
assign the `videoTexture` variable, add the `4/3 × 1` screen plane at the
origin with `scale.x = -1` to the scene, and start the frame loop. -/
noncomputable def resolve2 (s : State2) : State2 :=
  { s with
    videoTexture := some ⟨false⟩
    screens := s.screens ++ [{ geomWidth := 4 / 3, geomHeight := 1,
                               position := ⟨0, 0, 0⟩, scaleX := -1 }]
    loopRunning := true
    cap := .resolved }

/-- The three GUI sliders of variant 2, in the order they are registered. -/
inductive Slider2 where
  | ambient
  | rectArea
  | directional
deriving DecidableEq

/-- A variant-2 slider change writes the new value to the bound light. -/
def setIntensity2 (l : Slider2) (v : ℝ) (s : State2) : State2 :=
  match l with
  | .ambient => { s with ambientIntensity := v }
  | .rectArea => { s with rectAreaIntensity := v }
  | .directional => { s with directionalIntensity := v }

/-- The events that can reach the variant-2 session. -/
inductive Event2 where
  | capResolve
  | capReject
  | tick (t : ℝ)
  | resize (w h d : ℝ)
  | slider (l : Slider2) (v : ℝ)

/-- One step of the variant-2 session, with the same guards as variant 1. -/
noncomputable def step2 (s : State2) : Event2 → State2
  | .capResolve => if s.cap = .pending then resolve2 s else s
  | .capReject => if s.cap = .pending then { s with cap := .rejected } else s
  | .tick t => if s.loopRunning then tick2Update t s else s
  | .resize w h d => onResize2 w h d s
  | .slider l v => setIntensity2 l v s

/-- Run the variant-2 session from a given state through a list of events. -/
noncomputable def runFrom2 (s : State2) (evs : List Event2) : State2 :=
  evs.foldl step2 s

/-- Run the variant-2 session from its initial state. -/
noncomputable def run2 (w0 h0 d0 : ℝ) (evs : List Event2) : State2 :=
  runFrom2 (init2 w0 h0 d0) evs

/-! ## Step traces of the tick bodies

For the ordering claim, the statement order of each variant's `tick` body is
transcribed as a list of step kinds; the conditional dirty-marking
contributes a step exactly when a video texture exists. -/

/-- The kinds of steps a `tick` body performs. -/
inductive Step where
  | readTime
  | updateTransform
  | markTextureDirty
  | controlsUpdate
  | render
  | reschedule
deriving DecidableEq

/-- The statement order of variant 1's `tick` body (`src/script.js`,
lines 149-173): read the clock, the six rotation assignments, the
conditional dirty-marking, `controls.update()`, `renderer.render`,
`requestAnimationFrame(tick)`. -/
def tick1Steps (hasTexture : Bool) : List Step :=
  [.readTime]
    ++ List.replicate 6 .updateTransform
    ++ (if hasTexture then [.markTextureDirty] else [])
    ++ [.controlsUpdate, .render, .reschedule]

/-- The statement order of variant 2's `tick` body (`unnamed/part_000`,
lines 169-209): read the clock, the conditional dirty-marking, the nine
moving-light position assignments, `controls.update()`, `renderer.render`,
`requestAnimationFrame(tick)`. -/
def tick2Steps (hasTexture : Bool) : List Step :=
  [.readTime]
    ++ (if hasTexture then [.markTextureDirty] else [])
    ++ List.replicate 9 .updateTransform
    ++ [.controlsUpdate, .render, .reschedule]

/-- Modelled from the spec: the per-tick step order section 4.2 claims for
both variants — (1) read elapsed time, (2) all animated-transform updates,
(3) conditional dirty-marking, (4) controls damping, (5) render,
(6) reschedule. -/
def specTickOrder (nUpdates : ℕ) (hasTexture : Bool) : List Step :=
  [.readTime]
    ++ List.replicate nUpdates .updateTransform
    ++ (if hasTexture then [.markTextureDirty] else [])
    ++ [.controlsUpdate, .render, .reschedule]

/-- Iterate the variant-1 tick body over a sequence of elapsed-time
readings, as the frame loop does when driven by a (fake) clock. -/
noncomputable def runTicks1 (s : State1) (ts : List ℝ) : State1 :=
  ts.foldl (fun s t => tick1Update t s) s

/-- Iterate the variant-2 tick body over a sequence of elapsed-time
readings. -/
noncomputable def runTicks2 (s : State2) (ts : List ℝ) : State2 :=
  ts.foldl (fun s t => tick2Update t s) s

/-- The set-up values of the variant-1 mesh positions and of the floor
plane's transform: sphere at `(-1.5, 0, 0)`, cube at the origin, torus at
`(1.5, 0, 0)`, floor at `y = -0.65` rotated `-π/2` about x. -/
def positions1Fixed (s : State1) : Prop :=
  s.sphere.position = ⟨-1.5, 0, 0⟩ ∧
  s.cube.position = ⟨0, 0, 0⟩ ∧
  s.torus.position = ⟨1.5, 0, 0⟩ ∧
  s.plane.position.y = -0.65 ∧
  s.plane.rotation.x = -(Real.pi / 2)

/-- The variant-1 session invariant tying the webcam promise state to the
scene contents: while the promise is pending or after it rejected, no
screen mesh is in the scene, `videoTexture` is null and the frame loop has
not started; once it resolved, the scene holds exactly the one `16/9 × 1`
screen mesh `init` added, the video texture exists and the loop runs. -/
def sessionInv1 (s : State1) : Prop :=
  (s.cap = CapState.pending →
     s.screens = [] ∧ s.videoTexture = none ∧ s.loopRunning = false) ∧
  (s.cap = CapState.rejected →
     s.screens = [] ∧ s.videoTexture = none ∧ s.loopRunning = false) ∧
  (s.cap = CapState.resolved →
     s.screens = [{ geomWidth := 16 / 9, geomHeight := 1,
                    position := ⟨0, 1, -5⟩, scaleX := 1 }] ∧
     s.videoTexture.isSome = true ∧ s.loopRunning = true)

/-- The variant-2 session invariant, with the `4/3 × 1` mirrored screen. -/
def sessionInv2 (s : State2) : Prop :=
  (s.cap = CapState.pending →
     s.screens = [] ∧ s.videoTexture = none ∧ s.loopRunning = false) ∧
  (s.cap = CapState.rejected →
     s.screens = [] ∧ s.videoTexture = none ∧ s.loopRunning = false) ∧
  (s.cap = CapState.resolved →
     s.screens = [{ geomWidth := 4 / 3, geomHeight := 1,
                    position := ⟨0, 0, 0⟩, scaleX := -1 }] ∧
     s.videoTexture.isSome = true ∧ s.loopRunning = true)

/-! ## Claim theorems -/

/-- C1: in variant 2, one execution of the tick body at elapsed time `t`
sets `movingLight1.position` to `(2·cos(0.5t), sin t, 2·sin(0.5t))`,
`movingLight2.position` to `(2.5·cos(-0.5t), sin 2t + sin 2.5t,
2.55·sin(-0.5t))`, and `movingLight3.position` to
`((2+sin 0.32t)·cos 0.25t, 2·sin 1.5t, (3+sin 0.5t)·sin 0.25t)`;
in particular `movingLight3`'s y-coordinate equals `2·sin(1.5t)`. -/
theorem tick2_movingLight_positions (t : ℝ) (s : State2) :
    ((tick2Update t s).movingLight1.position.x = 2 * Real.cos (0.5 * t) ∧
     (tick2Update t s).movingLight1.position.y = Real.sin t ∧
     (tick2Update t s).movingLight1.position.z = 2 * Real.sin (0.5 * t)) ∧
    ((tick2Update t s).movingLight2.position.x = 2.5 * Real.cos (-(0.5 * t)) ∧
     (tick2Update t s).movingLight2.position.y = Real.sin (2 * t) + Real.sin (2.5 * t) ∧
     (tick2Update t s).movingLight2.position.z = 2.55 * Real.sin (-(0.5 * t))) ∧
    ((tick2Update t s).movingLight3.position.x
       = (2 + Real.sin (0.32 * t)) * Real.cos (0.25 * t) ∧
     (tick2Update t s).movingLight3.position.y = 2 * Real.sin (1.5 * t) ∧
     (tick2Update t s).movingLight3.position.z
       = (3 + Real.sin (0.5 * t)) * Real.sin (0.25 * t)) := by
  rcases hv : s.videoTexture with _ | v <;>
    simp only [tick2Update, hv, setPosX, setPosY, setPosZ] <;>
    refine ⟨⟨?_, ?_, ?_⟩, ⟨?_, ?_, ?_⟩, ?_, ?_, ?_⟩ <;> ring_nf

/-- C2: in variant 1, one execution of the tick body at elapsed time
`t ≥ 0` sets `rotation.y = 0.1·t` and `rotation.x = 0.15·t` for each of
sphere, cube and torus, so afterwards the three `rotation.x` values agree
and the three `rotation.y` values agree. -/
theorem tick1_mesh_rotations (t : ℝ) (s : State1) (h : 0 ≤ t) :
    ((tick1Update t s).sphere.rotation.y = 0.1 * t ∧
     (tick1Update t s).cube.rotation.y = 0.1 * t ∧
     (tick1Update t s).torus.rotation.y = 0.1 * t) ∧
    ((tick1Update t s).sphere.rotation.x = 0.15 * t ∧
     (tick1Update t s).cube.rotation.x = 0.15 * t ∧
     (tick1Update t s).torus.rotation.x = 0.15 * t) ∧
    ((tick1Update t s).sphere.rotation.x = (tick1Update t s).cube.rotation.x ∧
     (tick1Update t s).cube.rotation.x = (tick1Update t s).torus.rotation.x ∧
     (tick1Update t s).sphere.rotation.y = (tick1Update t s).cube.rotation.y ∧
     (tick1Update t s).cube.rotation.y = (tick1Update t s).torus.rotation.y) := by
  rcases hv : s.videoTexture with _ | v <;>
    simp [tick1Update, hv, setRotX, setRotY]

/-- Witness for C2 at `t = 1` from the initial state with a 1×1 window. -/
theorem tick1_mesh_rotations_witness :
    (0:ℝ) ≤ 1 ∧
    (((tick1Update 1 (init1 1 1 1)).sphere.rotation.y = 0.1 * 1 ∧
      (tick1Update 1 (init1 1 1 1)).cube.rotation.y = 0.1 * 1 ∧
      (tick1Update 1 (init1 1 1 1)).torus.rotation.y = 0.1 * 1) ∧
     ((tick1Update 1 (init1 1 1 1)).sphere.rotation.x = 0.15 * 1 ∧
      (tick1Update 1 (init1 1 1 1)).cube.rotation.x = 0.15 * 1 ∧
      (tick1Update 1 (init1 1 1 1)).torus.rotation.x = 0.15 * 1) ∧
     ((tick1Update 1 (init1 1 1 1)).sphere.rotation.x
        = (tick1Update 1 (init1 1 1 1)).cube.rotation.x ∧
      (tick1Update 1 (init1 1 1 1)).cube.rotation.x
        = (tick1Update 1 (init1 1 1 1)).torus.rotation.x ∧
      (tick1Update 1 (init1 1 1 1)).sphere.rotation.y
        = (tick1Update 1 (init1 1 1 1)).cube.rotation.y ∧
      (tick1Update 1 (init1 1 1 1)).cube.rotation.y
        = (tick1Update 1 (init1 1 1 1)).torus.rotation.y)) :=
  ⟨by norm_num, tick1_mesh_rotations 1 (init1 1 1 1) (by norm_num)⟩

/-- C5: in both variants, running the resize handler with window dimensions
`(w, h)`, `h ≠ 0`, and device pixel ratio `d` leaves the camera aspect at
`w/h`, the render-surface size at `(w, h)` (and the sizes record likewise),
and the pixel ratio at `min d 2`. -/
theorem resize_sets_camera_and_renderer (w h d : ℝ) (s1 : State1) (s2 : State2)
    (hh : h ≠ 0) :
    ((onResize1 w h d s1).camera.aspect = w / h ∧
     (onResize1 w h d s1).sizes = ⟨w, h⟩ ∧
     (onResize1 w h d s1).renderer.width = w ∧
     (onResize1 w h d s1).renderer.height = h ∧
     (onResize1 w h d s1).renderer.pixelRatio = min d 2) ∧
    ((onResize2 w h d s2).camera.aspect = w / h ∧
     (onResize2 w h d s2).sizes = ⟨w, h⟩ ∧
     (onResize2 w h d s2).renderer.width = w ∧
     (onResize2 w h d s2).renderer.height = h ∧
     (onResize2 w h d s2).renderer.pixelRatio = min d 2) := by
  simp [onResize1, onResize2]

/-- Witness for C5 at a 800×600 window with device pixel ratio 1. -/
theorem resize_sets_camera_and_renderer_witness :
    (600:ℝ) ≠ 0 ∧
    (((onResize1 800 600 1 (init1 1 1 1)).camera.aspect = 800 / 600 ∧
      (onResize1 800 600 1 (init1 1 1 1)).sizes = ⟨800, 600⟩ ∧
      (onResize1 800 600 1 (init1 1 1 1)).renderer.width = 800 ∧
      (onResize1 800 600 1 (init1 1 1 1)).renderer.height = 600 ∧
      (onResize1 800 600 1 (init1 1 1 1)).renderer.pixelRatio = min 1 2) ∧
     ((onResize2 800 600 1 (init2 1 1 1)).camera.aspect = 800 / 600 ∧
      (onResize2 800 600 1 (init2 1 1 1)).sizes = ⟨800, 600⟩ ∧
      (onResize2 800 600 1 (init2 1 1 1)).renderer.width = 800 ∧
      (onResize2 800 600 1 (init2 1 1 1)).renderer.height = 600 ∧
      (onResize2 800 600 1 (init2 1 1 1)).renderer.pixelRatio = min 1 2)) :=
  ⟨by norm_num,
   resize_sets_camera_and_renderer 800 600 1 (init1 1 1 1) (init2 1 1 1) (by norm_num)⟩

/-- C7: the resize handler is idempotent — for fixed window dimensions
`(w, h)` and device pixel ratio `d`, running it twice leaves the whole
state (camera, sizes record, render-surface parameters included) exactly as
running it once, in both variants. -/
theorem resize_idempotent (w h d : ℝ) (s1 : State1) (s2 : State2) :
    onResize1 w h d (onResize1 w h d s1) = onResize1 w h d s1 ∧
    onResize2 w h d (onResize2 w h d s2) = onResize2 w h d s2 :=
  ⟨rfl, rfl⟩

/-- Counterexample to C4: with a video texture present, the statement order
of variant 2's tick body is not the spec's order — the dirty-marking comes
before the nine transform updates, not after them. -/
theorem tick2_steps_not_spec_order :
    ¬ tick2Steps true = specTickOrder 9 true := by decide

/-- C4 (amended): variant 1's tick body follows the spec's step order
exactly; variant 2's tick body follows it except that the conditional
dirty-marking of the video texture comes immediately after the clock read
and hence precedes the transform updates — when a texture is present, the
dirty-marking step strictly precedes the first transform-update step. -/
theorem tick_step_order (b : Bool) :
    tick1Steps b = specTickOrder 6 b ∧
    (tick2Steps b).Perm (specTickOrder 9 b) ∧
    (tick2Steps true).indexOf .markTextureDirty
      < (tick2Steps true).indexOf .updateTransform := by
  cases b <;> exact ⟨rfl, by decide, by decide⟩

/-- C8: the per-tick transform updates are deterministic in the elapsed
time. From any two states, one tick at the same time `t` produces the same
animated-transform values (mesh rotation x/y in variant 1, the full moving
light positions in variant 2); and along any frame-loop run fed an
elapsed-time sequence ending in `t`, those values equal the closed-form
functions of `t` alone, whatever came before. -/
theorem tick_transforms_deterministic (ts : List ℝ) (t : ℝ)
    (s s' : State1) (u u' : State2) :
    ((tick1Update t s).sphere.rotation.x = (tick1Update t s').sphere.rotation.x ∧
     (tick1Update t s).sphere.rotation.y = (tick1Update t s').sphere.rotation.y ∧
     (tick1Update t s).cube.rotation.x = (tick1Update t s').cube.rotation.x ∧
     (tick1Update t s).cube.rotation.y = (tick1Update t s').cube.rotation.y ∧
     (tick1Update t s).torus.rotation.x = (tick1Update t s').torus.rotation.x ∧
     (tick1Update t s).torus.rotation.y = (tick1Update t s').torus.rotation.y) ∧
    ((tick2Update t u).movingLight1.position = (tick2Update t u').movingLight1.position ∧
     (tick2Update t u).movingLight2.position = (tick2Update t u').movingLight2.position ∧
     (tick2Update t u).movingLight3.position = (tick2Update t u').movingLight3.position) ∧
    ((runTicks1 s (ts ++ [t])).sphere.rotation.y = 0.1 * t ∧
     (runTicks1 s (ts ++ [t])).sphere.rotation.x = 0.15 * t ∧
     (runTicks1 s (ts ++ [t])).cube.rotation.y = 0.1 * t ∧
     (runTicks1 s (ts ++ [t])).cube.rotation.x = 0.15 * t ∧
     (runTicks1 s (ts ++ [t])).torus.rotation.y = 0.1 * t ∧
     (runTicks1 s (ts ++ [t])).torus.rotation.x = 0.15 * t ∧
     (runTicks2 u (ts ++ [t])).movingLight1.position.x = Real.cos (t * 0.5) * 2 ∧
     (runTicks2 u (ts ++ [t])).movingLight1.position.y = Real.sin t * 1 ∧
     (runTicks2 u (ts ++ [t])).movingLight1.position.z = Real.sin (t * 0.5) * 2 ∧
     (runTicks2 u (ts ++ [t])).movingLight2.position.x = Real.cos (-t * 0.5) * 2.5 ∧
     (runTicks2 u (ts ++ [t])).movingLight2.position.y
       = Real.sin (t * 2) + Real.sin (t * 2.5) ∧
     (runTicks2 u (ts ++ [t])).movingLight2.position.z = Real.sin (-t * 0.5) * 2.55 ∧
     (runTicks2 u (ts ++ [t])).movingLight3.position.x
       = Real.cos (t * 0.25) * (2 + Real.sin (t * 0.32)) ∧
     (runTicks2 u (ts ++ [t])).movingLight3.position.y
       = Real.sin (t * 1.5) + Real.sin (t * 1.5) ∧
     (runTicks2 u (ts ++ [t])).movingLight3.position.z
       = Real.sin (t * 0.25) * (3 + Real.sin (t * 0.5))) := by
  have h1 : ∀ v : State1,
      (tick1Update t v).sphere.rotation.x = 0.15 * t ∧
      (tick1Update t v).sphere.rotation.y = 0.1 * t ∧
      (tick1Update t v).cube.rotation.x = 0.15 * t ∧
      (tick1Update t v).cube.rotation.y = 0.1 * t ∧
      (tick1Update t v).torus.rotation.x = 0.15 * t ∧
      (tick1Update t v).torus.rotation.y = 0.1 * t := by
    intro v
    rcases hv : v.videoTexture with _ | x <;>
      simp [tick1Update, hv, setRotX, setRotY]
  have h2 : ∀ v : State2,
      (tick2Update t v).movingLight1.position
          = ⟨Real.cos (t * 0.5) * 2, Real.sin t * 1, Real.sin (t * 0.5) * 2⟩ ∧
      (tick2Update t v).movingLight2.position
          = ⟨Real.cos (-t * 0.5) * 2.5, Real.sin (t * 2) + Real.sin (t * 2.5),
             Real.sin (-t * 0.5) * 2.55⟩ ∧
      (tick2Update t v).movingLight3.position
          = ⟨Real.cos (t * 0.25) * (2 + Real.sin (t * 0.32)),
             Real.sin (t * 1.5) + Real.sin (t * 1.5),
             Real.sin (t * 0.25) * (3 + Real.sin (t * 0.5))⟩ := by
    intro v
    rcases hv : v.videoTexture with _ | x <;>
      simp [tick2Update, hv, setPosX, setPosY, setPosZ]
  have hr1 : runTicks1 s (ts ++ [t]) = tick1Update t (runTicks1 s ts) := by
    simp [runTicks1]
  have hr2 : runTicks2 u (ts ++ [t]) = tick2Update t (runTicks2 u ts) := by
    simp [runTicks2]
  refine ⟨?_, ?_, ?_⟩
  · obtain ⟨a1, a2, a3, a4, a5, a6⟩ := h1 s
    obtain ⟨b1, b2, b3, b4, b5, b6⟩ := h1 s'
    exact ⟨a1.trans b1.symm, a2.trans b2.symm, a3.trans b3.symm,
           a4.trans b4.symm, a5.trans b5.symm, a6.trans b6.symm⟩
  · obtain ⟨a1, a2, a3⟩ := h2 u
    obtain ⟨b1, b2, b3⟩ := h2 u'
    exact ⟨a1.trans b1.symm, a2.trans b2.symm, a3.trans b3.symm⟩
  · obtain ⟨a1, a2, a3, a4, a5, a6⟩ := h1 (runTicks1 s ts)
    obtain ⟨b1, b2, b3⟩ := h2 (runTicks2 u ts)
    rw [hr1, hr2]
    exact ⟨a2, a1, a4, a3, a6, a5,
           congrArg Vec3.x b1, congrArg Vec3.y b1, congrArg Vec3.z b1,
           congrArg Vec3.x b2, congrArg Vec3.y b2, congrArg Vec3.z b2,
           congrArg Vec3.x b3, congrArg Vec3.y b3, congrArg Vec3.z b3⟩

/-- One variant-1 tick keeps the set-up positions of the meshes and the
floor transform intact. -/
theorem tick1Update_keeps_positions1Fixed (t : ℝ) (s : State1)
    (h : positions1Fixed s) : positions1Fixed (tick1Update t s) := by
  obtain ⟨h1, h2, h3, h4, h5⟩ := h
  rcases hv : s.videoTexture with _ | x <;>
    simp [tick1Update, positions1Fixed, hv, setRotX, setRotY, h1, h2, h3, h4, h5]

/-- Any variant-1 frame-loop run keeps the set-up positions intact. -/
theorem runTicks1_keeps_positions1Fixed (ts : List ℝ) (s : State1)
    (h : positions1Fixed s) : positions1Fixed (runTicks1 s ts) := by
  induction ts generalizing s with
  | nil => exact h
  | cons t ts ih =>
      have : runTicks1 s (t :: ts) = runTicks1 (tick1Update t s) ts := by
        simp [runTicks1]
      rw [this]
      exact ih _ (tick1Update_keeps_positions1Fixed t s h)

/-- The variant-1 module set-up satisfies the fixed-positions predicate. -/
theorem init1_positions1Fixed (w0 h0 d0 : ℝ) : positions1Fixed (init1 w0 h0 d0) := by
  refine ⟨rfl, rfl, rfl, rfl, ?_⟩
  show -Real.pi * 0.5 = -(Real.pi / 2)
  ring

/-- C10: a variant-1 tick mutates only the x/y rotations of sphere, cube
and torus (and the video texture's dirty flag when one is present): every
position, the floor plane's whole transform, the z rotations, the light
intensities, the sizes record, camera, renderer, scene contents and session
flags are unchanged, and the presence of the video texture is preserved;
consequently along any frame-loop run from the initial state the sphere
stays at `(-1.5, 0, 0)`, the cube at the origin, the torus at `(1.5, 0, 0)`,
and the floor plane at `y = -0.65` rotated `-π/2` about x. -/
theorem tick1_frame_effect (t w0 h0 d0 : ℝ) (s : State1) (ts : List ℝ) :
    ((tick1Update t s).sphere.position = s.sphere.position ∧
     (tick1Update t s).cube.position = s.cube.position ∧
     (tick1Update t s).torus.position = s.torus.position ∧
     (tick1Update t s).plane.position = s.plane.position ∧
     (tick1Update t s).plane.rotation = s.plane.rotation ∧
     (tick1Update t s).sphere.rotation.z = s.sphere.rotation.z ∧
     (tick1Update t s).cube.rotation.z = s.cube.rotation.z ∧
     (tick1Update t s).torus.rotation.z = s.torus.rotation.z ∧
     (tick1Update t s).ambientIntensity = s.ambientIntensity ∧
     (tick1Update t s).directionalIntensity = s.directionalIntensity ∧
     (tick1Update t s).pointIntensity = s.pointIntensity ∧
     (tick1Update t s).rectAreaIntensity = s.rectAreaIntensity ∧
     (tick1Update t s).sizes = s.sizes ∧
     (tick1Update t s).camera = s.camera ∧
     (tick1Update t s).renderer = s.renderer ∧
     (tick1Update t s).screens = s.screens ∧
     (tick1Update t s).loopRunning = s.loopRunning ∧
     (tick1Update t s).cap = s.cap ∧
     (tick1Update t s).videoTexture.isSome = s.videoTexture.isSome) ∧
    positions1Fixed (runTicks1 (init1 w0 h0 d0) ts) := by
  constructor
  · rcases hv : s.videoTexture with _ | x <;>
      simp [tick1Update, hv, setRotX, setRotY]
  · exact runTicks1_keeps_positions1Fixed ts _ (init1_positions1Fixed w0 h0 d0)

/-- The session-relevant fields a variant-1 tick leaves alone: scene
contents, promise state, loop flag, and presence/absence of the texture. -/
theorem tick1Update_session_fields (t : ℝ) (s : State1) :
    (tick1Update t s).screens = s.screens ∧
    (tick1Update t s).cap = s.cap ∧
    (tick1Update t s).loopRunning = s.loopRunning ∧
    ((tick1Update t s).videoTexture = none ↔ s.videoTexture = none) ∧
    (tick1Update t s).videoTexture.isSome = s.videoTexture.isSome := by
  rcases hv : s.videoTexture with _ | x <;>
    simp [tick1Update, hv, setRotX, setRotY]

/-- The variant-1 initial state satisfies the session invariant. -/
theorem init1_sessionInv1 (w0 h0 d0 : ℝ) : sessionInv1 (init1 w0 h0 d0) := by
  simp [sessionInv1, init1]

/-- Every variant-1 event step preserves the session invariant. -/
theorem step1_preserves_sessionInv1 (s : State1) (e : Event1)
    (h : sessionInv1 s) : sessionInv1 (step1 s e) := by
  obtain ⟨hp, hrj, hrs⟩ := h
  cases e with
  | capResolve =>
      by_cases hc : s.cap = CapState.pending
      · obtain ⟨h1, h2, h3⟩ := hp hc
        simp [step1, hc, resolve1, sessionInv1, h1]
      · simp only [step1, if_neg hc]
        exact ⟨hp, hrj, hrs⟩
  | capReject =>
      by_cases hc : s.cap = CapState.pending
      · obtain ⟨h1, h2, h3⟩ := hp hc
        simp [step1, hc, sessionInv1, h1, h2, h3]
      · simp only [step1, if_neg hc]
        exact ⟨hp, hrj, hrs⟩
  | tick t =>
      by_cases hl : s.loopRunning = true
      · obtain ⟨hS, hC, hL, hN, hI⟩ := tick1Update_session_fields t s
        simp only [step1, hl, if_true]
        refine ⟨?_, ?_, ?_⟩
        · intro hc
          rw [hC] at hc
          exact absurd (hp hc).2.2 (by simp [hl])
        · intro hc
          rw [hC] at hc
          exact absurd (hrj hc).2.2 (by simp [hl])
        · intro hc
          rw [hC] at hc
          obtain ⟨k1, k2, k3⟩ := hrs hc
          exact ⟨by rw [hS, k1], by rw [hI, k2], by rw [hL, k3]⟩
      · simp only [step1, if_neg hl]
        exact ⟨hp, hrj, hrs⟩
  | resize w h d =>
      simpa [step1, onResize1, sessionInv1] using ⟨hp, hrj, hrs⟩
  | slider l v =>
      cases l <;> simpa [step1, setIntensity1, sessionInv1] using ⟨hp, hrj, hrs⟩

/-- Running any variant-1 event list preserves the session invariant. -/
theorem runFrom1_preserves_sessionInv1 (evs : List Event1) (s : State1)
    (h : sessionInv1 s) : sessionInv1 (runFrom1 s evs) := by
  induction evs generalizing s with
  | nil => exact h
  | cons e evs ih =>
      have : runFrom1 s (e :: evs) = runFrom1 (step1 s e) evs := by
        simp [runFrom1]
      rw [this]
      exact ih _ (step1_preserves_sessionInv1 s e h)

/-- The session invariant holds in every reachable variant-1 state. -/
theorem run1_sessionInv1 (w0 h0 d0 : ℝ) (evs : List Event1) :
    sessionInv1 (run1 w0 h0 d0 evs) :=
  runFrom1_preserves_sessionInv1 evs _ (init1_sessionInv1 w0 h0 d0)

/-- Once the variant-1 webcam promise has settled, it stays settled the
same way: no event moves `cap` out of `resolved` or `rejected`. -/
theorem step1_cap_settled (s : State1) (e : Event1) :
    s.cap ≠ CapState.pending → (step1 s e).cap = s.cap := by
  intro h
  cases e with
  | capResolve => simp [step1, h]
  | capReject => simp [step1, h]
  | tick t =>
      by_cases hl : s.loopRunning = true
      · simpa [step1, hl] using (tick1Update_session_fields t s).2.1
      · simp [step1, hl]
  | resize w h d => simp [step1, onResize1]
  | slider l v => cases l <;> simp [step1, setIntensity1]

/-- Settled promise states persist through whole variant-1 event lists. -/
theorem runFrom1_cap_settled (evs : List Event1) (s : State1)
    (h : s.cap ≠ CapState.pending) : (runFrom1 s evs).cap = s.cap := by
  induction evs generalizing s with
  | nil => rfl
  | cons e evs ih =>
      have h1 : runFrom1 s (e :: evs) = runFrom1 (step1 s e) evs := by
        simp [runFrom1]
      have h2 := step1_cap_settled s e h
      rw [h1, ih (step1 s e) (by rw [h2]; exact h), h2]

/-- The session-relevant fields a variant-2 tick leaves alone. -/
theorem tick2Update_session_fields (t : ℝ) (s : State2) :
    (tick2Update t s).screens = s.screens ∧
    (tick2Update t s).cap = s.cap ∧
    (tick2Update t s).loopRunning = s.loopRunning ∧
    ((tick2Update t s).videoTexture = none ↔ s.videoTexture = none) ∧
    (tick2Update t s).videoTexture.isSome = s.videoTexture.isSome := by
  rcases hv : s.videoTexture with _ | x <;>
    simp [tick2Update, hv, setPosX, setPosY, setPosZ]

/-- The variant-2 initial state satisfies the session invariant. -/
theorem init2_sessionInv2 (w0 h0 d0 : ℝ) : sessionInv2 (init2 w0 h0 d0) := by
  simp [sessionInv2, init2]

/-- Every variant-2 event step preserves the session invariant. -/
theorem step2_preserves_sessionInv2 (s : State2) (e : Event2)
    (h : sessionInv2 s) : sessionInv2 (step2 s e) := by
  obtain ⟨hp, hrj, hrs⟩ := h
  cases e with
  | capResolve =>
      by_cases hc : s.cap = CapState.pending
      · obtain ⟨h1, h2, h3⟩ := hp hc
        simp [step2, hc, resolve2, sessionInv2, h1]
      · simp only [step2, if_neg hc]
        exact ⟨hp, hrj, hrs⟩
  | capReject =>
      by_cases hc : s.cap = CapState.pending
      · obtain ⟨h1, h2, h3⟩ := hp hc
        simp [step2, hc, sessionInv2, h1, h2, h3]
      · simp only [step2, if_neg hc]
        exact ⟨hp, hrj, hrs⟩
  | tick t =>
      by_cases hl : s.loopRunning = true
      · obtain ⟨hS, hC, hL, hN, hI⟩ := tick2Update_session_fields t s
        simp only [step2, hl, if_true]
        refine ⟨?_, ?_, ?_⟩
        · intro hc
          rw [hC] at hc
          exact absurd (hp hc).2.2 (by simp [hl])
        · intro hc
          rw [hC] at hc
          exact absurd (hrj hc).2.2 (by simp [hl])
        · intro hc
          rw [hC] at hc
          obtain ⟨k1, k2, k3⟩ := hrs hc
          exact ⟨by rw [hS, k1], by rw [hI, k2], by rw [hL, k3]⟩
      · simp only [step2, if_neg hl]
        exact ⟨hp, hrj, hrs⟩
  | resize w h d =>
      simpa [step2, onResize2, sessionInv2] using ⟨hp, hrj, hrs⟩
  | slider l v =>
      cases l <;> simpa [step2, setIntensity2, sessionInv2] using ⟨hp, hrj, hrs⟩

/-- Running any variant-2 event list preserves the session invariant. -/
theorem runFrom2_preserves_sessionInv2 (evs : List Event2) (s : State2)
    (h : sessionInv2 s) : sessionInv2 (runFrom2 s evs) := by
  induction evs generalizing s with
  | nil => exact h
  | cons e evs ih =>
      have : runFrom2 s (e :: evs) = runFrom2 (step2 s e) evs := by
        simp [runFrom2]
      rw [this]
      exact ih _ (step2_preserves_sessionInv2 s e h)

/-- The session invariant holds in every reachable variant-2 state. -/
theorem run2_sessionInv2 (w0 h0 d0 : ℝ) (evs : List Event2) :
    sessionInv2 (run2 w0 h0 d0 evs) :=
  runFrom2_preserves_sessionInv2 evs _ (init2_sessionInv2 w0 h0 d0)

/-- Once the variant-2 webcam promise has settled, no event moves it. -/
theorem step2_cap_settled (s : State2) (e : Event2) :
    s.cap ≠ CapState.pending → (step2 s e).cap = s.cap := by
  intro h
  cases e with
  | capResolve => simp [step2, h]
  | capReject => simp [step2, h]
  | tick t =>
      by_cases hl : s.loopRunning = true
      · simpa [step2, hl] using (tick2Update_session_fields t s).2.1
      · simp [step2, hl]
  | resize w h d => simp [step2, onResize2]
  | slider l v => cases l <;> simp [step2, setIntensity2]

/-- Settled promise states persist through whole variant-2 event lists. -/
theorem runFrom2_cap_settled (evs : List Event2) (s : State2)
    (h : s.cap ≠ CapState.pending) : (runFrom2 s evs).cap = s.cap := by
  induction evs generalizing s with
  | nil => rfl
  | cons e evs ih =>
      have h1 : runFrom2 s (e :: evs) = runFrom2 (step2 s e) evs := by
        simp [runFrom2]
      have h2 := step2_cap_settled s e h
      rw [h1, ih (step2 s e) (by rw [h2]; exact h), h2]

/-- Counterexample to C3: `tick` is only ever invoked from `init` after the
awaited webcam promise, so when the promise rejects the frame loop is not
running — the session does not continue rendering the rest of the scene. -/
theorem reject_loop_not_running_counterexample :
    ¬ ((run1 1 1 1 [Event1.capReject]).loopRunning = true) := by
  simp [run1, runFrom1, step1, init1]

/-- C3 (amended): if camera access is denied or fails, the rejection
propagates unhandled out of `init` and leaves the session rejected for
good: whatever events follow, the screen mesh is never added to the scene,
no video texture ever exists, and the frame loop never starts — so far the
claim holds; but contrary to the claim the session does not keep rendering:
nothing is ever rendered, because only `tick` renders and it never runs. -/
theorem reject_no_screen_no_loop (w0 h0 d0 : ℝ)
    (evs : List Event1) (evs2 : List Event2) :
    ((runFrom1 (run1 w0 h0 d0 [Event1.capReject]) evs).screens = [] ∧
     (runFrom1 (run1 w0 h0 d0 [Event1.capReject]) evs).videoTexture = none ∧
     (runFrom1 (run1 w0 h0 d0 [Event1.capReject]) evs).loopRunning = false) ∧
    ((runFrom2 (run2 w0 h0 d0 [Event2.capReject]) evs2).screens = [] ∧
     (runFrom2 (run2 w0 h0 d0 [Event2.capReject]) evs2).videoTexture = none ∧
     (runFrom2 (run2 w0 h0 d0 [Event2.capReject]) evs2).loopRunning = false) := by
  have hc1 : (run1 w0 h0 d0 [Event1.capReject]).cap = CapState.rejected := by
    simp [run1, runFrom1, step1, init1]
  have hc2 : (run2 w0 h0 d0 [Event2.capReject]).cap = CapState.rejected := by
    simp [run2, runFrom2, step2, init2]
  have hI1 := runFrom1_preserves_sessionInv1 evs _ (run1_sessionInv1 w0 h0 d0 [Event1.capReject])
  have hI2 := runFrom2_preserves_sessionInv2 evs2 _ (run2_sessionInv2 w0 h0 d0 [Event2.capReject])
  have hC1 := runFrom1_cap_settled evs _ (by rw [hc1]; simp)
  have hC2 := runFrom2_cap_settled evs2 _ (by rw [hc2]; simp)
  exact ⟨hI1.2.1 (by rw [hC1, hc1]), hI2.2.1 (by rw [hC2, hc2])⟩

/-- C6: before the webcam promise resolves, no screen mesh is in the scene
and no video texture exists; once it resolves, the scene holds exactly one
screen mesh, later events (ticks, resizes, slider changes, or anything
else) never duplicate it, and the video texture exists for the remainder
of the session — in both variants. -/
theorem screen_and_texture_lifecycle (w0 h0 d0 : ℝ)
    (evs more : List Event1) (evs2 more2 : List Event2) :
    ((run1 w0 h0 d0 evs).cap = CapState.pending →
       (run1 w0 h0 d0 evs).screens = [] ∧
       (run1 w0 h0 d0 evs).videoTexture = none) ∧
    ((run1 w0 h0 d0 evs).cap = CapState.resolved →
       (run1 w0 h0 d0 evs).screens.length = 1 ∧
       (runFrom1 (run1 w0 h0 d0 evs) more).screens.length = 1 ∧
       (runFrom1 (run1 w0 h0 d0 evs) more).videoTexture.isSome = true) ∧
    ((run2 w0 h0 d0 evs2).cap = CapState.pending →
       (run2 w0 h0 d0 evs2).screens = [] ∧
       (run2 w0 h0 d0 evs2).videoTexture = none) ∧
    ((run2 w0 h0 d0 evs2).cap = CapState.resolved →
       (run2 w0 h0 d0 evs2).screens.length = 1 ∧
       (runFrom2 (run2 w0 h0 d0 evs2) more2).screens.length = 1 ∧
       (runFrom2 (run2 w0 h0 d0 evs2) more2).videoTexture.isSome = true) := by
  obtain ⟨hp1, hrj1, hrs1⟩ := run1_sessionInv1 w0 h0 d0 evs
  obtain ⟨hp2, hrj2, hrs2⟩ := run2_sessionInv2 w0 h0 d0 evs2
  obtain ⟨hp1', hrj1', hrs1'⟩ :=
    runFrom1_preserves_sessionInv1 more _ (run1_sessionInv1 w0 h0 d0 evs)
  obtain ⟨hp2', hrj2', hrs2'⟩ :=
    runFrom2_preserves_sessionInv2 more2 _ (run2_sessionInv2 w0 h0 d0 evs2)
  refine ⟨fun hc => ⟨(hp1 hc).1, (hp1 hc).2.1⟩, fun hc => ?_,
          fun hc => ⟨(hp2 hc).1, (hp2 hc).2.1⟩, fun hc => ?_⟩
  · have hC := runFrom1_cap_settled more (run1 w0 h0 d0 evs) (by rw [hc]; simp)
    have h2 := hrs1' (by rw [hC, hc])
    exact ⟨by rw [(hrs1 hc).1]; rfl, by rw [h2.1]; rfl, h2.2.1⟩
  · have hC := runFrom2_cap_settled more2 (run2 w0 h0 d0 evs2) (by rw [hc]; simp)
    have h2 := hrs2' (by rw [hC, hc])
    exact ⟨by rw [(hrs2 hc).1]; rfl, by rw [h2.1]; rfl, h2.2.1⟩

/-- C9: every screen mesh ever present in the scene has plane geometry
`16/9 × 1` and no mirroring in variant 1, and plane geometry `4/3 × 1`
horizontally mirrored (`scale.x = -1`) in variant 2. -/
theorem screen_mesh_aspect (w0 h0 d0 : ℝ)
    (evs : List Event1) (evs2 : List Event2) (sc1 sc2 : ScreenMesh)
    (h1 : sc1 ∈ (run1 w0 h0 d0 evs).screens)
    (h2 : sc2 ∈ (run2 w0 h0 d0 evs2).screens) :
    (sc1.geomWidth = 16 / 9 ∧ sc1.geomHeight = 1 ∧ sc1.scaleX = 1) ∧
    (sc2.geomWidth = 4 / 3 ∧ sc2.geomHeight = 1 ∧ sc2.scaleX = -1) := by
  obtain ⟨hp1, hrj1, hrs1⟩ := run1_sessionInv1 w0 h0 d0 evs
  obtain ⟨hp2, hrj2, hrs2⟩ := run2_sessionInv2 w0 h0 d0 evs2
  constructor
  · rcases hc : (run1 w0 h0 d0 evs).cap with _ | _ | _
    · rw [(hp1 hc).1] at h1
      simp at h1
    · rw [(hrs1 hc).1] at h1
      simp only [List.mem_singleton] at h1
      subst h1
      exact ⟨rfl, rfl, rfl⟩
    · rw [(hrj1 hc).1] at h1
      simp at h1
  · rcases hc : (run2 w0 h0 d0 evs2).cap with _ | _ | _
    · rw [(hp2 hc).1] at h2
      simp at h2
    · rw [(hrs2 hc).1] at h2
      simp only [List.mem_singleton] at h2
      subst h2
      exact ⟨rfl, rfl, rfl⟩
    · rw [(hrj2 hc).1] at h2
      simp at h2

/-- Witness for C9: the screens actually created by `init` in either
variant, reached by resolving the webcam promise. -/
theorem screen_mesh_aspect_witness :
    (({ geomWidth := 16 / 9, geomHeight := 1, position := ⟨0, 1, -5⟩,
        scaleX := 1 } : ScreenMesh) ∈ (run1 1 1 1 [Event1.capResolve]).screens ∧
     ({ geomWidth := 4 / 3, geomHeight := 1, position := ⟨0, 0, 0⟩,
        scaleX := -1 } : ScreenMesh) ∈ (run2 1 1 1 [Event2.capResolve]).screens) ∧
    ((({ geomWidth := 16 / 9, geomHeight := 1, position := ⟨0, 1, -5⟩,
         scaleX := 1 } : ScreenMesh).geomWidth = 16 / 9 ∧
      ({ geomWidth := 16 / 9, geomHeight := 1, position := ⟨0, 1, -5⟩,
         scaleX := 1 } : ScreenMesh).geomHeight = 1 ∧
      ({ geomWidth := 16 / 9, geomHeight := 1, position := ⟨0, 1, -5⟩,
         scaleX := 1 } : ScreenMesh).scaleX = 1) ∧
     (({ geomWidth := 4 / 3, geomHeight := 1, position := ⟨0, 0, 0⟩,
         scaleX := -1 } : ScreenMesh).geomWidth = 4 / 3 ∧
      ({ geomWidth := 4 / 3, geomHeight := 1, position := ⟨0, 0, 0⟩,
         scaleX := -1 } : ScreenMesh).geomHeight = 1 ∧
      ({ geomWidth := 4 / 3, geomHeight := 1, position := ⟨0, 0, 0⟩,
         scaleX := -1 } : ScreenMesh).scaleX = -1)) :=
  ⟨⟨by simp [run1, runFrom1, step1, init1, resolve1],
    by simp [run2, runFrom2, step2, init2, resolve2]⟩,
   screen_mesh_aspect 1 1 1 [Event1.capResolve] [Event2.capResolve] _ _
     (by simp [run1, runFrom1, step1, init1, resolve1])
     (by simp [run2, runFrom2, step2, init2, resolve2])⟩
